import Mathlib

/-!
Verification of the PlayPath JavaScript SDK (`playpath-sdk.js`) against its
natural-language specification.  The SDK is shallowly embedded: JSON values
are an inductive type, JavaScript truthiness and property access are explicit
functions, the `fetch` transport is a parameter (a function from the issued
request to an outcome), and thrown exceptions become `Except` error values.
Mutable chat-session state becomes explicit state passing.
-/

/-- A JSON value, the domain of parsed HTTP bodies and of `formatChatHistory`
inputs.  `null` models both JSON null and a JavaScript `null` argument. -/
inductive Json where
  | null : Json
  | bool (b : Bool) : Json
  | num (n : Int) : Json
  | str (s : String) : Json
  | arr (elems : List Json) : Json
  | obj (fields : List (String × Json)) : Json
deriving Repr

/-- JavaScript truthiness of a value (`if (v)` / `v || w`):
`null`, `false`, `0` and `""` are falsy; every array and object is truthy. -/
def jsTruthy : Json → Bool
  | .null => false
  | .bool b => b
  | .num n => n != 0
  | .str s => s != ""
  | .arr _ => true
  | .obj _ => true

/-- JavaScript string coercion `String(v)`, as applied by the `Error`
constructor to a non-string message.  Arrays join their elements with commas
(null elements become the empty string); objects print as `[object Object]`. -/
def jsToString : Json → String
  | .null => "null"
  | .bool b => cond b "true" "false"
  | .num n => toString n
  | .str s => s
  | .obj _ => "[object Object]"
  | .arr elems => go elems
where
  /-- Comma-joined rendering of the array elements; a `null` element renders
  as the empty string. -/
  go : List Json → String
  | [] => ""
  | [x] => match x with | .null => "" | v => jsToString v
  | x :: y :: rest =>
    (match x with | .null => "" | v => jsToString v) ++ "," ++ go (y :: rest)

/-- JavaScript property read `v.k`: throws a TypeError on `null`, returns the
field when `v` is an object holding it, and `undefined` (here `none`)
otherwise.  The error string carries the thrown TypeError message. -/
def jsGetProp : Json → String → Except String (Option Json)
  | .null, k => .error ("TypeError: cannot read properties of null, reading " ++ k)
  | .obj fields, k => .ok (fields.lookup k)
  | _, _ => .ok none

/-- JavaScript `a || b` where `a` may be `undefined` (`none`). -/
def jsOr (a : Option Json) (b : Json) : Json :=
  match a with
  | some v => if jsTruthy v then v else b
  | none => b

/-- The diagnostic payload attached to a `PlayPathError`: either the full
parsed response body, or the underlying JavaScript error. -/
inductive ErrData where
  | json (body : Json) : ErrData
  | jsError (message : String) : ErrData
deriving Repr

/-- The SDK error class `PlayPathError(message, status = null, data = null)`. -/
structure PlayPathError where
  message : String
  status : Option Nat
  data : Option ErrData
deriving Repr

/-- Outcome of one `fetch` call: an HTTP response whose body either parses to
a JSON value or fails to parse (carrying the parse-error message), or a
network-level failure with no response. -/
inductive FetchOutcome where
  | response (status : Nat) (body : Except String Json) : FetchOutcome
  | networkError (message : String) : FetchOutcome
deriving Repr

/-- JS `response.ok`: the HTTP status is in the 2xx success range. -/
def responseOk (status : Nat) : Bool :=
  200 ≤ status && status ≤ 299

/-- The transport `_request`, applied to the outcome of its single `fetch`
call.  Mirrors the source: parse the body; on a non-ok status throw
`PlayPathError(data.error || "HTTP <status>", status, data)`; re-throw
`PlayPathError`s; wrap any other exception (network failure, parse failure,
property read on a null body) as `PlayPathError(message, null, error)`. -/
def request (outcome : FetchOutcome) : Except PlayPathError Json :=
  match outcome with
  | .networkError msg => .error ⟨msg, none, some (.jsError msg)⟩
  | .response status body =>
    match body with
    | .error parseMsg => .error ⟨parseMsg, none, some (.jsError parseMsg)⟩
    | .ok data =>
      if responseOk status then .ok data
      else
        match jsGetProp data "error" with
        | .error tyMsg => .error ⟨tyMsg, none, some (.jsError tyMsg)⟩
        | .ok errField =>
          .error ⟨jsToString (jsOr errField (.str ("HTTP " ++ toString status))),
                  some status, some (.json data)⟩

/-- Method `getItem(id)`: a GET of `/api/items/<id>` through the transport; the
server is modelled as a function from the requested endpoint to a fetch
outcome. -/
def getItem (server : String → FetchOutcome) (id : String) : Except PlayPathError Json :=
  request (server ("/api/items/" ++ id))

/-- Truthiness of an optional string argument (`none` models an absent /
`undefined` field, which is falsy; the empty string is falsy). -/
def jsTruthyStr : Option String → Bool
  | some s => s != ""
  | none => false

/-- One conversation turn object `{role, text}` as the SDK builds and sends
them.  `text` is `Option Json` because `response.reply` may be `undefined`. -/
structure Turn where
  role : String
  text : Option Json
deriving Repr

/-- The caller-supplied argument of `ragChat`: each field may be absent. -/
structure RagChatParams where
  message : Option String
  history : Option (List Turn)
  system_prompt : Option String
deriving Repr

/-- The JSON body `ragChat` posts to `/api/rag/chat`; `none` in an optional
field means the key is omitted from the body entirely. -/
structure RagPayload where
  message : String
  history : Option (List Turn)
  system_prompt : Option String
deriving Repr

/-- Payload construction inside `ragChat`: `message` always; `history` is
added by `if (params.history)` — any array, the empty one included, is
truthy, so it is present exactly when supplied; `system_prompt` is added by
`if (params.system_prompt)`, so only a non-empty string survives. -/
def buildRagPayload (params : RagChatParams) : RagPayload :=
  { message := params.message.getD ""
    history := params.history
    system_prompt :=
      if jsTruthyStr params.system_prompt then params.system_prompt else none }

/-- Method `ragChat(params)`: throw `PlayPathError("Message is required", 400)` when
`params.message` is falsy, otherwise POST the built payload.  The server is a
function from the posted payload to a fetch outcome; the second component
records the requests actually issued (empty when validation fails first). -/
def ragChat (params : RagChatParams) (server : RagPayload → FetchOutcome) :
    Except PlayPathError Json × List RagPayload :=
  if !jsTruthyStr params.message then
    (.error ⟨"Message is required", some 400, none⟩, [])
  else
    let payload := buildRagPayload params
    (request (server payload), [payload])

/-- The caller-supplied argument of `createItem`; each field may be absent. -/
structure Item where
  title : Option String
  url : Option String
  text : Option String
  tags : Option (List String)
deriving Repr, DecidableEq

/-- Method `createItem(item)`: throw `PlayPathError("Either title or text is
required", 400)` when both `item.title` and `item.text` are falsy, otherwise
POST the item.  The second component records the requests issued. -/
def createItem (item : Item) (server : Item → FetchOutcome) :
    Except PlayPathError Json × List Item :=
  if !jsTruthyStr item.title && !jsTruthyStr item.text then
    (.error ⟨"Either title or text is required", some 400, none⟩, [])
  else
    (request (server item), [item])

/-- The mapper body inside `formatChatHistory`: build
`{role: msg.role || "user", text: msg.text || msg.message || msg.content || ""}`.
Property reads happen in source order and throw on a `null` record. -/
def formatTurn (msg : Json) : Except String Json :=
  match jsGetProp msg "role" with
  | .error e => .error e
  | .ok roleVal =>
    match jsGetProp msg "text" with
    | .error e => .error e
    | .ok textVal =>
      match jsGetProp msg "message" with
      | .error e => .error e
      | .ok messageVal =>
        match jsGetProp msg "content" with
        | .error e => .error e
        | .ok contentVal =>
          .ok (.obj [("role", jsOr roleVal (.str "user")),
                     ("text", jsOr textVal (jsOr messageVal (jsOr contentVal (.str ""))))])

/-- The mapping `messages.map(...)` applied element by element, stopping at the first
element whose processing throws. -/
def formatTurns : List Json → Except String (List Json)
  | [] => .ok []
  | m :: rest =>
    match formatTurn m with
    | .error e => .error e
    | .ok t =>
      match formatTurns rest with
      | .error e => .error e
      | .ok ts => .ok (t :: ts)

/-- Method `formatChatHistory(messages)`: `messages.map(...)`.  Calling `.map` on
`null` or on a non-array value throws a TypeError. -/
def formatChatHistory : Json → Except String Json
  | .arr msgs =>
    (match formatTurns msgs with
     | .error e => .error e
     | .ok ts => .ok (.arr ts))
  | .null => .error "TypeError: cannot read properties of null, reading map"
  | _ => .error "TypeError: messages.map is not a function"

/-- The state captured by the closure `createChatSession` returns: the
private `history` array and the current `systemPrompt`. -/
structure SessionState where
  history : List Turn
  systemPrompt : Option String
deriving Repr

/-- Method `createChatSession(systemPrompt = null)`: fresh empty history. -/
def createChatSession (systemPrompt : Option String) : SessionState :=
  ⟨[], systemPrompt⟩

/-- The session method `getHistory()` (the turns it renders; the aliasing aspect is
treated separately in the reference model below). -/
def getHistory (st : SessionState) : List Turn := st.history

/-- The session method `clearHistory()`: `history.length = 0`. -/
def clearHistory (st : SessionState) : SessionState := { st with history := [] }

/-- The session method `setSystemPrompt(prompt)`. -/
def setSystemPrompt (st : SessionState) (prompt : String) : SessionState :=
  { st with systemPrompt := some prompt }

/-- An exception escaping `sendMessage`: either the SDK error type, or
a raw TypeError (thrown by `response.reply` when the response is `null`). -/
inductive JsException where
  | pp (e : PlayPathError) : JsException
  | typeError (message : String) : JsException
deriving Repr

/-- The session method `sendMessage(message)`: build params from a copy of the
current history and the prompt (added only when truthy), call `ragChat`; on
success push the user turn, then read `response.reply` (which throws between
the two pushes when the response is `null`) and push the assistant turn.
Returns the result, the new session state, and the requests issued. -/
def sendMessage (server : RagPayload → FetchOutcome) (st : SessionState)
    (message : String) :
    Except JsException Json × SessionState × List RagPayload :=
  let params : RagChatParams :=
    { message := some message
      history := some st.history
      system_prompt :=
        if jsTruthyStr st.systemPrompt then st.systemPrompt else none }
  match ragChat params server with
  | (.error e, issued) => (.error (.pp e), st, issued)
  | (.ok response, issued) =>
    let afterUser :=
      { st with history := st.history ++ [⟨"user", some (.str message)⟩] }
    match jsGetProp response "reply" with
    | .error m => (.error (.typeError m), afterUser, issued)
    | .ok reply =>
      (.ok response,
       { afterUser with history := afterUser.history ++ [⟨"assistant", reply⟩] },
       issued)

/-- Run a sequence of `sendMessage` calls, succeeding only when every call
does. -/
def sendMany (server : RagPayload → FetchOutcome) (st : SessionState) :
    List String → Option SessionState
  | [] => some st
  | m :: rest =>
    match sendMessage server st m with
    | (.ok _, st1, _) => sendMany server st1 rest
    | (.error _, _, _) => none

/-- The history a run of successful calls produces: a user turn for each sent
message interleaved with the corresponding assistant turn. -/
def interleave : List String → List (Option Json) → List Turn
  | m :: ms, r :: rs =>
    ⟨"user", some (.str m)⟩ :: ⟨"assistant", r⟩ :: interleave ms rs
  | _, _ => []

/-- Roles strictly alternate `user`, `assistant`, `user`, ... over an
even-length turn list. -/
def alternatingUA : List Turn → Bool
  | [] => true
  | [_] => false
  | u :: a :: rest => u.role == "user" && a.role == "assistant" && alternatingUA rest

/-! ### Reference model of the shallow copy made by `getHistory`

The method `getHistory` is `() => [...history]`: it copies the array but not
the turn objects inside, which remain shared JavaScript heap objects.  To
reason about that sharing, turns live in an explicit heap and the history
array holds references (heap indices).  The spread copies the list of
references. -/

/-- A turn object as stored on the JS heap (both fields are strings there). -/
structure ATurn where
  role : String
  text : String
deriving Repr, DecidableEq

/-- The JS heap restricted to turn objects: cell `r` holds the turn object
with reference `r`. -/
structure Heap where
  cells : List ATurn
deriving Repr, DecidableEq

/-- Dereference a turn object. -/
def Heap.read (h : Heap) (r : Nat) : Option ATurn := h.cells[r]?

/-- Mutate the turn object behind reference `r` (e.g. `turn.text = ...`
performed by a caller on an object it obtained). -/
def Heap.write (h : Heap) (r : Nat) (t : ATurn) : Heap := ⟨h.cells.set r t⟩

/-- The private session `history` array: a list of references to turn
objects. -/
structure SessionRefs where
  refs : List Nat
deriving Repr, DecidableEq

/-- Method `getHistory()` as `[...history]`: a fresh array holding the same
references to the same turn objects. -/
def getHistoryCopy (s : SessionRefs) : List Nat := s.refs

/-- The turn sequence the session actually contains, read through the heap. -/
def viewHistory (h : Heap) (s : SessionRefs) : List (Option ATurn) :=
  s.refs.map h.read

/-! ### Typed message records for `formatChatHistory` -/

/-- A message-like record with the four fields `formatChatHistory` inspects,
each optionally present with a string value. -/
structure MsgRecord where
  role : Option String
  text : Option String
  message : Option String
  content : Option String
deriving Repr, DecidableEq

/-- Embed one optional string field into the field list of a JSON object. -/
def optField (k : String) : Option String → List (String × Json)
  | some s => [(k, .str s)]
  | none => []

/-- The JSON object a `MsgRecord` denotes (present fields only). -/
def MsgRecord.toJson (r : MsgRecord) : Json :=
  .obj (optField "role" r.role ++ optField "text" r.text ++
        optField "message" r.message ++ optField "content" r.content)

/-- First present-and-non-empty string in a list of optional fields, else the
empty string. -/
def firstNonEmpty : List (Option String) → String
  | [] => ""
  | some s :: rest => if s ≠ "" then s else firstNonEmpty rest
  | none :: rest => firstNonEmpty rest

/-- The Chat Turn a record normalizes to: the role field of the record when present and
non-empty (else `user`), and the first present-and-non-empty text among the
text, message and content fields (else the empty string). -/
def MsgRecord.normTurn (r : MsgRecord) : Json :=
  .obj [("role", .str (match r.role with
                       | some s => if s ≠ "" then s else "user"
                       | none => "user")),
        ("text", .str (firstNonEmpty [r.text, r.message, r.content]))]

/-! ### Concrete servers used to instantiate the theorems -/

/-- A well-behaved backend echoing the sent message as the reply. -/
def echoServer : RagPayload → FetchOutcome :=
  fun p => .response 200 (.ok (.obj [("reply", .str p.message)]))

/-- A pathological backend answering HTTP 200 with the JSON body `null`. -/
def nullServer : RagPayload → FetchOutcome :=
  fun _ => .response 200 (.ok .null)

/-! ## Theorems -/

/-- Claim C3, counterexample.  The transport takes the error field of the parsed body
field only when it is truthy, not merely present: a 404 body `{"error": ""}`
has an error field present, yet the raised message is `"HTTP 404"`, not that
field value `""`.  Moreover a 404 whose body parses to JSON `null` takes
the exception path: its status is `null`, not 404, and its payload is not
the parsed body. -/
theorem C3_counterexample :
    request (.response 404 (.ok (.obj [("error", .str "")]))) =
      .error ⟨"HTTP 404", some 404, some (.json (.obj [("error", .str "")]))⟩ ∧
    "HTTP 404" ≠ "" ∧
    request (.response 404 (.ok .null)) =
      .error ⟨"TypeError: cannot read properties of null, reading error", none,
              some (.jsError "TypeError: cannot read properties of null, reading error")⟩ ∧
    (none : Option Nat) ≠ some 404 :=
  ⟨rfl, by decide, rfl, by decide⟩

/-- Claim C3 (amended): on a non-success HTTP response whose body parses as
JSON, the transport fails with the error field of the parsed body field as message when
that field is present and truthy (non-empty), else with `"HTTP <status>"`
provided the body is not JSON `null`; either way the error carries the HTTP
status and the full parsed body.  With no response, an unparseable body, or
a `null` body, it fails with the message of the underlying failure, a null
status, and the underlying failure as payload.  In particular a 404 with
body `{"error":"not found"}` for `getItem` yields status 404 and message
`"not found"`. -/
theorem C3_transport_error_classification :
    (∀ status data v, responseOk status = false →
      jsGetProp data "error" = .ok (some v) → jsTruthy v = true →
        request (.response status (.ok data)) =
          .error ⟨jsToString v, some status, some (.json data)⟩) ∧
    (∀ status data errField, responseOk status = false →
      jsGetProp data "error" = .ok errField →
      (∀ v, errField = some v → jsTruthy v = false) →
        request (.response status (.ok data)) =
          .error ⟨"HTTP " ++ toString status, some status, some (.json data)⟩) ∧
    (∀ msg, request (.networkError msg) = .error ⟨msg, none, some (.jsError msg)⟩) ∧
    (∀ status msg, request (.response status (.error msg)) =
      .error ⟨msg, none, some (.jsError msg)⟩) ∧
    getItem (fun _ => .response 404 (.ok (.obj [("error", .str "not found")]))) "missing" =
      .error ⟨"not found", some 404, some (.json (.obj [("error", .str "not found")]))⟩ := by
  refine ⟨?_, ?_, fun msg => rfl, fun status msg => rfl, rfl⟩
  · intro status data v hok hget htru
    simp [request, hok, hget, jsOr, htru]
  · intro status data errField hok hget hfalsy
    cases errField with
    | none => simp [request, hok, hget, jsOr, jsToString]
    | some v => simp [request, hok, hget, jsOr, hfalsy v rfl, jsToString]

/-- Witness for C3: the amended theorem applied at the example given in the spec, a
404 response with body `{"error":"not found"}`. -/
theorem C3_transport_error_classification_witness :
    responseOk 404 = false ∧ jsTruthy (.str "not found") = true ∧
    request (.response 404 (.ok (.obj [("error", .str "not found")]))) =
      .error ⟨jsToString (.str "not found"), some 404,
              some (.json (.obj [("error", .str "not found")]))⟩ :=
  ⟨rfl, rfl, C3_transport_error_classification.1 404
    (.obj [("error", .str "not found")]) (.str "not found") rfl rfl rfl⟩

/-- Claim C5: `ragChat` with an absent or empty message raises the
validation error (message `"Message is required"`, status 400) and issues no
request at all, whatever the backend would have answered. -/
theorem C5_ragchat_requires_message :
    ∀ history sp server,
      ragChat ⟨none, history, sp⟩ server =
        (.error ⟨"Message is required", some 400, none⟩, []) ∧
      ragChat ⟨some "", history, sp⟩ server =
        (.error ⟨"Message is required", some 400, none⟩, []) :=
  fun _ _ _ => ⟨rfl, rfl⟩

/-- Claim C6: for a non-empty message, the posted body carries exactly the
provided fields — the message always; the history exactly when provided
(empty or not); the system prompt only when provided, and omitted when
absent — and a successful response body is returned verbatim. -/
theorem C6_ragchat_payload_exact :
    ∀ m history sp, m ≠ "" →
      (buildRagPayload ⟨some m, history, sp⟩).message = m ∧
      (buildRagPayload ⟨some m, history, sp⟩).history = history ∧
      (sp = none → (buildRagPayload ⟨some m, history, sp⟩).system_prompt = none) ∧
      (∀ t, (buildRagPayload ⟨some m, history, sp⟩).system_prompt = some t →
        sp = some t) ∧
      (∀ status body, responseOk status = true →
        ragChat ⟨some m, history, sp⟩ (fun _ => .response status (.ok body)) =
          (.ok body, [buildRagPayload ⟨some m, history, sp⟩])) := by
  intro m history sp hm
  refine ⟨rfl, rfl, ?_, ?_, ?_⟩
  · intro h
    subst h
    rfl
  · intro t h
    cases sp with
    | none => simp [buildRagPayload, jsTruthyStr] at h
    | some s =>
      simp only [buildRagPayload, jsTruthyStr] at h
      split at h
      · exact h
      · simp at h
  · intro status body hok
    have hmt : jsTruthyStr (some m) = true := by
      simp [jsTruthyStr, bne_iff_ne, hm]
    simp [ragChat, hmt, request, hok]

/-- Witness for C6: `ragChat({message: "hi"})` against a backend answering
`{reply: "hello"}` yields exactly that object. -/
theorem C6_ragchat_payload_exact_witness :
    "hi" ≠ "" ∧ responseOk 200 = true ∧
    ragChat ⟨some "hi", none, none⟩
        (fun _ => .response 200 (.ok (.obj [("reply", .str "hello")]))) =
      (.ok (.obj [("reply", .str "hello")]),
       [buildRagPayload ⟨some "hi", none, none⟩]) :=
  ⟨by decide, rfl,
   (C6_ragchat_payload_exact "hi" none none (by decide)).2.2.2.2 200
     (.obj [("reply", .str "hello")]) rfl⟩

/-- Each typed record maps to exactly its normalized turn (the bridge between
the JSON-level mapper and the record-level description). -/
theorem formatTurn_toJson (r : MsgRecord) : formatTurn r.toJson = .ok r.normTurn := by
  rcases r with ⟨roleF, textF, messageF, contentF⟩
  cases roleF <;> cases textF <;> cases messageF <;> cases contentF <;>
    (simp only [MsgRecord.toJson, MsgRecord.normTurn, optField, formatTurn,
                jsGetProp, List.lookup, jsOr, jsTruthy, firstNonEmpty,
                List.nil_append, List.cons_append] <;>
     split_ifs <;>
     simp_all [bne_iff_ne])

/-- Claim C8, counterexample.  The mapper takes the first *truthy* field, not
the first present one: on `[{text:"", message:"y"}]` the text field is
present (with value `""`), yet the text of the produced turn is `"y"`. -/
theorem C8_counterexample :
    formatChatHistory (.arr [.obj [("text", .str ""), ("message", .str "y")]]) =
      .ok (.arr [.obj [("role", .str "user"), ("text", .str "y")]]) ∧
    "y" ≠ "" :=
  ⟨rfl, by decide⟩

/-- Claim C8 (amended): each record maps to a turn whose role is the record
role field when present and non-empty (else `user`) and whose text is the
first present-and-non-empty field among text, message and content (else the
empty string); in particular `[{content:"x"}]` maps to
`[{role:"user", text:"x"}]` and `[{role:"assistant", message:"y"}]` to
`[{role:"assistant", text:"y"}]`. -/
theorem C8_format_history_normalization :
    (∀ l : List MsgRecord,
      formatChatHistory (.arr (l.map MsgRecord.toJson)) =
        .ok (.arr (l.map MsgRecord.normTurn))) ∧
    formatChatHistory (.arr [.obj [("content", .str "x")]]) =
      .ok (.arr [.obj [("role", .str "user"), ("text", .str "x")]]) ∧
    formatChatHistory (.arr [.obj [("role", .str "assistant"), ("message", .str "y")]]) =
      .ok (.arr [.obj [("role", .str "assistant"), ("text", .str "y")]]) := by
  refine ⟨?_, rfl, rfl⟩
  have hList : ∀ ms : List MsgRecord,
      formatTurns (ms.map MsgRecord.toJson) = .ok (ms.map MsgRecord.normTurn) := by
    intro ms
    induction ms with
    | nil => rfl
    | cons r rest ih => simp [formatTurns, formatTurn_toJson, ih]
  intro l
  simp [formatChatHistory, hList l]

/-- Claim C9, counterexample.  `formatChatHistory` is not total: a `null`
argument, a `null` element, and a non-list argument each make it throw a
TypeError instead of returning a result. -/
theorem C9_counterexample :
    formatChatHistory .null =
      .error "TypeError: cannot read properties of null, reading map" ∧
    formatChatHistory (.arr [.null]) =
      .error "TypeError: cannot read properties of null, reading role" ∧
    formatChatHistory (.num 42) =
      .error "TypeError: messages.map is not a function" ∧
    (Except.error "TypeError: cannot read properties of null, reading map"
      : Except String Json).isOk = false :=
  ⟨rfl, rfl, rfl, rfl⟩

/-- The mapper inside `formatChatHistory` succeeds on any record that is not `null`
(property access never throws on non-null values). -/
theorem formatTurn_ok_of_ne_null (m : Json) (h : m ≠ .null) :
    ∃ t, formatTurn m = .ok t := by
  cases m with
  | null => exact absurd rfl h
  | bool b => exact ⟨_, rfl⟩
  | num n => exact ⟨_, rfl⟩
  | str s => exact ⟨_, rfl⟩
  | arr elems => exact ⟨_, rfl⟩
  | obj fields => exact ⟨_, rfl⟩

/-- Claim C9 (amended): `formatChatHistory` is a pure mapping with no side
effects, and it is total over every list of non-`null` elements — records of
any shape, missing fields, non-string field values included — returning one
turn per element; it does throw on a `null` element or a non-list argument. -/
theorem C9_format_history_total :
    ∀ msgs : List Json, (∀ m ∈ msgs, m ≠ .null) →
      ∃ ts : List Json, formatChatHistory (.arr msgs) = .ok (.arr ts) ∧
        ts.length = msgs.length := by
  have hList : ∀ ms : List Json, (∀ m ∈ ms, m ≠ .null) →
      ∃ ts, formatTurns ms = .ok ts ∧ ts.length = ms.length := by
    intro ms
    induction ms with
    | nil => exact fun _ => ⟨[], rfl, rfl⟩
    | cons m rest ih =>
      intro hms
      obtain ⟨t, ht⟩ := formatTurn_ok_of_ne_null m (hms m (by simp))
      obtain ⟨ts, hts, hlen⟩ := ih (fun x hx => hms x (by simp [hx]))
      exact ⟨t :: ts, by simp [formatTurns, ht, hts], by simp [hlen]⟩
  intro msgs h
  obtain ⟨ts, hts, hlen⟩ := hList msgs h
  exact ⟨ts, by simp [formatChatHistory, hts], hlen⟩

/-- Witness for C9: the amended totality theorem applied to a one-element
list containing a record of unusual shape (a numeric text field). -/
theorem C9_format_history_total_witness :
    (∀ m ∈ [Json.obj [("text", Json.num 7)]], m ≠ Json.null) ∧
    ∃ ts : List Json,
      formatChatHistory (.arr [Json.obj [("text", Json.num 7)]]) = .ok (.arr ts) ∧
      ts.length = [Json.obj [("text", Json.num 7)]].length := by
  have hne : ∀ m ∈ [Json.obj [("text", Json.num 7)]], m ≠ Json.null := by
    intro m hm
    simp at hm
    subst hm
    intro hc
    cases hc
  exact ⟨hne, C9_format_history_total [Json.obj [("text", Json.num 7)]] hne⟩

/-- Claim C7, counterexample.  The item `{title: ""}` supplies a title field,
yet `createItem` raises the validation error and never reaches the
transport: the check is on truthiness, not presence. -/
theorem C7_counterexample :
    (⟨some "", none, none, none⟩ : Item).title = some "" ∧
    createItem ⟨some "", none, none, none⟩
        (fun _ => .response 200 (.ok (.obj []))) =
      (.error ⟨"Either title or text is required", some 400, none⟩, []) :=
  ⟨rfl, rfl⟩

/-- Claim C7 (amended): when both the title and the text are absent or
empty, `createItem` raises the validation error without issuing any network
call; when at least one of them is present and non-empty, the item is passed
to the transport. -/
theorem C7_item_validation :
    ∀ item server,
      ((∀ s, item.title = some s → s = "") →
       (∀ s, item.text = some s → s = "") →
        createItem item server =
          (.error ⟨"Either title or text is required", some 400, none⟩, [])) ∧
      (((∃ s, item.title = some s ∧ s ≠ "") ∨ (∃ s, item.text = some s ∧ s ≠ "")) →
        createItem item server = (request (server item), [item])) := by
  intro item server
  constructor
  · intro htitle htext
    have h1 : jsTruthyStr item.title = false := by
      cases h : item.title with
      | none => rfl
      | some s => simp [jsTruthyStr, htitle s h]
    have h2 : jsTruthyStr item.text = false := by
      cases h : item.text with
      | none => rfl
      | some s => simp [jsTruthyStr, htext s h]
    simp [createItem, h1, h2]
  · intro h
    have : (!jsTruthyStr item.title && !jsTruthyStr item.text) = false := by
      rcases h with ⟨s, hs, hne⟩ | ⟨s, hs, hne⟩ <;>
        simp [hs, jsTruthyStr, bne_iff_ne, hne]
    simp [createItem, this]

/-- Witness for C7: `createItem({})` raises without a network call, and an
item with the non-empty title `"t"` is passed through to the transport. -/
theorem C7_item_validation_witness :
    createItem ⟨none, none, none, none⟩
        (fun _ => .response 200 (.ok (.obj []))) =
      (.error ⟨"Either title or text is required", some 400, none⟩, []) ∧
    createItem ⟨some "t", none, none, none⟩
        (fun _ => .response 200 (.ok (.obj []))) =
      (request ((fun (_ : Item) => FetchOutcome.response 200 (.ok (.obj []))) ⟨some "t", none, none, none⟩),
       [⟨some "t", none, none, none⟩]) :=
  ⟨(C7_item_validation ⟨none, none, none, none⟩ _).1
      (fun s h => by cases h) (fun s h => by cases h),
   (C7_item_validation ⟨some "t", none, none, none⟩ _).2
      (.inl ⟨"t", rfl, by decide⟩)⟩

/-- A successful `sendMessage` appends exactly the user turn with the sent
text followed by the assistant turn with the reply field of the response. -/
theorem sendMessage_ok_history (server : RagPayload → FetchOutcome)
    (st : SessionState) (msg : String) (r : Json) (st2 : SessionState)
    (issued : List RagPayload)
    (h : sendMessage server st msg = (.ok r, st2, issued)) :
    ∃ a, jsGetProp r "reply" = .ok a ∧
      st2.history = st.history ++ [⟨"user", some (.str msg)⟩, ⟨"assistant", a⟩] := by
  simp only [sendMessage] at h
  split at h
  · simp at h
  · rename_i response issued0 heqRag
    split at h
    · simp at h
    · rename_i reply heqReply
      simp only [Prod.mk.injEq] at h
      obtain ⟨h1, h2, h3⟩ := h
      refine ⟨reply, ?_, ?_⟩
      · rw [← Except.ok.inj h1]
        exact heqReply
      · rw [← h2]
        simp

/-- A `sendMessage` failing with the SDK error type (the `ragChat`
call threw) leaves the session state untouched. -/
theorem sendMessage_pp_unchanged (server : RagPayload → FetchOutcome)
    (st : SessionState) (msg : String) (e : PlayPathError) (st2 : SessionState)
    (issued : List RagPayload)
    (h : sendMessage server st msg = (.error (.pp e), st2, issued)) :
    st2 = st := by
  simp only [sendMessage] at h
  split at h
  · simp only [Prod.mk.injEq] at h
    exact h.2.1.symm
  · split at h <;> simp at h

/-- A `sendMessage` failing with a TypeError (reading `.reply` off a `null`
response) has already pushed the user turn — and only it. -/
theorem sendMessage_typeError_history (server : RagPayload → FetchOutcome)
    (st : SessionState) (msg : String) (m : String) (st2 : SessionState)
    (issued : List RagPayload)
    (h : sendMessage server st msg = (.error (.typeError m), st2, issued)) :
    st2.history = st.history ++ [⟨"user", some (.str msg)⟩] := by
  simp only [sendMessage] at h
  split at h
  · simp at h
  · split at h
    · simp only [Prod.mk.injEq] at h
      rw [← h.2.1]
    · simp at h

/-- Claim C1, counterexample.  Against a backend answering HTTP 200 with the
JSON body `null`, `sendMessage` fails (the `response.reply` read throws a
TypeError after the first push) yet exactly one turn has been appended —
neither zero nor two. -/
theorem C1_counterexample :
    (sendMessage nullServer (createChatSession none) "hi").1 =
      .error (.typeError "TypeError: cannot read properties of null, reading reply") ∧
    (sendMessage nullServer (createChatSession none) "hi").2.1.history =
      [⟨"user", some (.str "hi")⟩] ∧
    ([⟨"user", some (.str "hi")⟩] : List Turn).length = 1 ∧
    (1 : Nat) ≠ 0 ∧ (1 : Nat) ≠ 2 :=
  ⟨rfl, rfl, rfl, by decide, by decide⟩

/-- Claim C1 (amended): `sendMessage` either succeeds and appends exactly the
user turn with the sent text then the assistant turn with the response
reply field, or fails with the propagated SDK error value and leaves the
history exactly as it was — except when the transport succeeds with a JSON
`null` response: then reading the reply throws after the first push, so the
TypeError propagates with the user turn alone appended. -/
theorem C1_send_atomicity :
    ∀ (server : RagPayload → FetchOutcome) (st : SessionState) (msg : String),
      (∀ r, (sendMessage server st msg).1 = .ok r →
        ∃ a, jsGetProp r "reply" = .ok a ∧
          (sendMessage server st msg).2.1.history =
            st.history ++ [⟨"user", some (.str msg)⟩, ⟨"assistant", a⟩]) ∧
      (∀ e, (sendMessage server st msg).1 = .error (.pp e) →
        (sendMessage server st msg).2.1 = st) ∧
      (∀ m, (sendMessage server st msg).1 = .error (.typeError m) →
        (sendMessage server st msg).2.1.history =
          st.history ++ [⟨"user", some (.str msg)⟩]) := by
  intro server st msg
  rcases hS : sendMessage server st msg with ⟨res, st2, issued⟩
  refine ⟨?_, ?_, ?_⟩
  · intro r hr
    have hr' : res = .ok r := hr
    have : sendMessage server st msg = (.ok r, st2, issued) := by
      rw [hS, hr']
    exact sendMessage_ok_history server st msg r st2 issued this
  · intro e he
    have he' : res = .error (.pp e) := he
    have : sendMessage server st msg = (.error (.pp e), st2, issued) := by
      rw [hS, he']
    exact sendMessage_pp_unchanged server st msg e st2 issued this
  · intro m hm
    have hm' : res = .error (.typeError m) := hm
    have : sendMessage server st msg = (.error (.typeError m), st2, issued) := by
      rw [hS, hm']
    exact sendMessage_typeError_history server st msg m st2 issued this

/-- Witness for C1: the success branch of the amended theorem at the echoing
backend, yielding exactly the two turns. -/
theorem C1_send_atomicity_witness :
    (sendMessage echoServer (createChatSession none) "hi").1 =
      .ok (.obj [("reply", .str "hi")]) ∧
    (sendMessage echoServer (createChatSession none) "hi").2.1.history =
      (createChatSession none).history ++
        [⟨"user", some (.str "hi")⟩, ⟨"assistant", some (.str "hi")⟩] := by
  obtain ⟨a, ha, hh⟩ :=
    (C1_send_atomicity echoServer (createChatSession none) "hi").1
      (.obj [("reply", .str "hi")]) rfl
  have hav : a = some (.str "hi") := by
    have h2 : Except.ok (some (Json.str "hi")) = (.ok a : Except String (Option Json)) := ha
    exact (Except.ok.inj h2).symm
  refine ⟨rfl, ?_⟩
  rw [hh, hav]

/-- An interleaving of equally many messages and replies has twice that
length. -/
theorem interleave_length :
    ∀ (ms : List String) (rs : List (Option Json)), rs.length = ms.length →
      (interleave ms rs).length = 2 * ms.length := by
  intro ms
  induction ms with
  | nil => intro rs _; cases rs <;> simp [interleave]
  | cons m rest ih =>
    intro rs hlen
    cases rs with
    | nil => simp at hlen
    | cons r rtail =>
      simp only [interleave, List.length_cons] at hlen ⊢
      rw [ih rtail (by omega)]
      omega

/-- An interleaving of equally many messages and replies alternates roles
`user`, `assistant`, `user`, ... -/
theorem interleave_alternating :
    ∀ (ms : List String) (rs : List (Option Json)), rs.length = ms.length →
      alternatingUA (interleave ms rs) = true := by
  intro ms
  induction ms with
  | nil => intro rs _; cases rs <;> simp [interleave, alternatingUA]
  | cons m rest ih =>
    intro rs hlen
    cases rs with
    | nil => simp at hlen
    | cons r rtail =>
      simp only [interleave, alternatingUA]
      simp [ih rtail (by simpa using hlen)]

/-- A run of successful `sendMessage` calls appends exactly the interleaving
of the sent messages with the received replies. -/
theorem sendMany_append (server : RagPayload → FetchOutcome) :
    ∀ (msgs : List String) (st st2 : SessionState),
      sendMany server st msgs = some st2 →
      ∃ replies : List (Option Json), replies.length = msgs.length ∧
        st2.history = st.history ++ interleave msgs replies := by
  intro msgs
  induction msgs with
  | nil =>
    intro st st2 h
    simp only [sendMany, Option.some.injEq] at h
    exact ⟨[], rfl, by simp [interleave, ← h]⟩
  | cons m rest ih =>
    intro st st2 h
    simp only [sendMany] at h
    split at h
    · rename_i r st1 iss heq
      obtain ⟨a, _, hh1⟩ := sendMessage_ok_history server st m r st1 iss heq
      obtain ⟨replies, hlen, hh2⟩ := ih st1 st2 h
      refine ⟨a :: replies, by simp [hlen], ?_⟩
      rw [hh2, hh1]
      simp [interleave]
    · simp at h

/-- Claim C2: after N successful `sendMessage` calls on a fresh session, the
history has length exactly 2N, roles alternate user/assistant, and it is the
interleaving of the sent messages (in call order) with the replies. -/
theorem C2_session_history_shape :
    ∀ (sp : Option String) (server : RagPayload → FetchOutcome)
      (msgs : List String) (st2 : SessionState),
      sendMany server (createChatSession sp) msgs = some st2 →
      st2.history.length = 2 * msgs.length ∧
      alternatingUA st2.history = true ∧
      ∃ replies : List (Option Json), replies.length = msgs.length ∧
        st2.history = interleave msgs replies := by
  intro sp server msgs st2 h
  obtain ⟨replies, hlen, hh⟩ := sendMany_append server msgs (createChatSession sp) st2 h
  have hh2 : st2.history = interleave msgs replies := by
    simpa [createChatSession] using hh
  refine ⟨?_, ?_, replies, hlen, hh2⟩
  · rw [hh2]
    exact interleave_length msgs replies hlen
  · rw [hh2]
    exact interleave_alternating msgs replies hlen

/-- Witness for C2: two successful sends against the echoing backend give a
four-turn alternating history in call order. -/
theorem C2_session_history_shape_witness :
    sendMany echoServer (createChatSession none) ["a", "b"] =
      some ⟨[⟨"user", some (.str "a")⟩, ⟨"assistant", some (.str "a")⟩,
             ⟨"user", some (.str "b")⟩, ⟨"assistant", some (.str "b")⟩], none⟩ ∧
    (⟨[⟨"user", some (.str "a")⟩, ⟨"assistant", some (.str "a")⟩,
       ⟨"user", some (.str "b")⟩, ⟨"assistant", some (.str "b")⟩], none⟩
        : SessionState).history.length = 2 * 2 ∧
    alternatingUA (⟨[⟨"user", some (.str "a")⟩, ⟨"assistant", some (.str "a")⟩,
       ⟨"user", some (.str "b")⟩, ⟨"assistant", some (.str "b")⟩], none⟩
        : SessionState).history = true :=
  ⟨rfl,
   (C2_session_history_shape none echoServer ["a", "b"] _ rfl).1,
   (C2_session_history_shape none echoServer ["a", "b"] _ rfl).2.1⟩

/-- Method `ragChat` issues exactly one request — carrying the built payload — when
the message is truthy, and none otherwise. -/
theorem ragChat_issued (params : RagChatParams) (server : RagPayload → FetchOutcome) :
    (ragChat params server).2 =
      if jsTruthyStr params.message then [buildRagPayload params] else [] := by
  cases h : jsTruthyStr params.message <;> simp [ragChat, h]

/-- Method `sendMessage` issues exactly the requests its inner `ragChat` call
issues, whatever happens afterwards. -/
theorem sendMessage_issued (server : RagPayload → FetchOutcome)
    (st : SessionState) (msg : String) :
    (sendMessage server st msg).2.2 =
      (ragChat ⟨some msg, some st.history,
        if jsTruthyStr st.systemPrompt then st.systemPrompt else none⟩ server).2 := by
  simp only [sendMessage]
  split
  · rename_i e iss heq
    rw [heq]
  · rename_i response iss heq
    split <;> rw [heq]

/-- Claim C10: every chat request a `sendMessage` call issues carries a
history field equal to the session history at call time — for a fresh
session, the empty sequence, included rather than omitted — and for a
non-empty message exactly one such request is issued. -/
theorem C10_sendmessage_always_sends_history :
    ∀ (server : RagPayload → FetchOutcome) (st : SessionState) (msg : String),
      (∀ p ∈ (sendMessage server st msg).2.2, p.history = some st.history) ∧
      (msg ≠ "" → ∃ p, (sendMessage server st msg).2.2 = [p] ∧
        p.history = some st.history) := by
  intro server st msg
  constructor
  · intro p hp
    rw [sendMessage_issued] at hp
    by_cases hm : msg = ""
    · subst hm
      simp [ragChat, jsTruthyStr] at hp
    · have hmt : jsTruthyStr (some msg) = true := by
        simp [jsTruthyStr, bne_iff_ne, hm]
      simp only [ragChat, hmt, Bool.not_true, Bool.false_eq_true, if_false,
                 List.mem_singleton] at hp
      subst hp
      rfl
  · intro hm
    have hmt : jsTruthyStr (some msg) = true := by
      simp [jsTruthyStr, bne_iff_ne, hm]
    rw [sendMessage_issued]
    simp only [ragChat, hmt, Bool.not_true, Bool.false_eq_true, if_false]
    exact ⟨_, rfl, rfl⟩

/-- Witness for C10: the first `sendMessage` of a fresh session posts a
request whose history field is the empty sequence (present, not omitted). -/
theorem C10_sendmessage_always_sends_history_witness :
    "hi" ≠ "" ∧
    ∃ p, (sendMessage echoServer (createChatSession none) "hi").2.2 = [p] ∧
      p.history = some (createChatSession none).history :=
  ⟨by decide,
   (C10_sendmessage_always_sends_history echoServer (createChatSession none) "hi").2
     (by decide)⟩

/-- Claim C4, counterexample.  In the reference-heap model of
the shallow copy made by `getHistory()` `[...history]`, a caller that mutates a turn
object reached through the returned array does change the session internal
history: the copy and the session share the turn objects. -/
theorem C4_counterexample :
    viewHistory
        (Heap.write ⟨[⟨"user", "hi"⟩]⟩ ((getHistoryCopy ⟨[0]⟩).headD 0)
          ⟨"user", "evil"⟩)
        ⟨[0]⟩ ≠
      viewHistory ⟨[⟨"user", "hi"⟩]⟩ ⟨[0]⟩ := by
  decide

/-- Claim C4 (amended): `getHistory()` returns a fresh top-level array that
dereferences to exactly the current turn sequence of the session, and the
session history is unaffected by writes to any turn object *not* reachable
through that copy; turn objects inside the copy, however, are shared with
the session (see the counterexample), so mutating them does alter
session-internal state. -/
theorem C4_gethistory_shallow_copy :
    ∀ (h : Heap) (s : SessionRefs) (r : Nat) (t : ATurn),
      (getHistoryCopy s).map h.read = viewHistory h s ∧
      (r ∉ getHistoryCopy s →
        viewHistory (h.write r t) s = viewHistory h s) := by
  intro h s r t
  refine ⟨rfl, ?_⟩
  intro hr
  unfold viewHistory
  apply List.map_congr_left
  intro x hx
  have hne : r ≠ x := fun he => hr (he ▸ hx)
  simp [Heap.read, Heap.write, List.getElem?_set_ne hne]

/-- Witness for C4: a write to a turn object outside the copied history (cell
5) leaves the single-turn session history intact. -/
theorem C4_gethistory_shallow_copy_witness :
    (5 : Nat) ∉ getHistoryCopy ⟨[0]⟩ ∧
    viewHistory (Heap.write ⟨[⟨"user", "hi"⟩]⟩ 5 ⟨"user", "evil"⟩) ⟨[0]⟩ =
      viewHistory ⟨[⟨"user", "hi"⟩]⟩ ⟨[0]⟩ :=
  ⟨by decide,
   (C4_gethistory_shallow_copy ⟨[⟨"user", "hi"⟩]⟩ ⟨[0]⟩ 5 ⟨"user", "evil"⟩).2
     (by decide)⟩
